import Mathlib

/-!
Shallow embedding of the `pcvideoscrapper` pipeline
(`schemas.py`, `video_metadata_extractor.py`, `twelve_labs_client.py`,
`step_extractor.py`, `pipeline.py`).

Conventions of the embedding:
* Python `float` scores, timestamps and durations are modelled as `ℚ`
  (exact rationals); the claims under study only involve order
  comparisons and structural copying of these values.
* Python `str` is `String`; Python substring tests (`needle in hay`)
  are modelled by an explicit substring check over the character list.
* Python dictionaries coming back from the external search service are
  modelled as structures whose possibly-missing keys are `Option`
  fields; `dict.get(key, default)` becomes `Option.getD`.
* Fallible operations (`raise ValueError`) are modelled with
  `Except String`.
-/

namespace Buildr

/-! ## String utilities -/

/-- Lower-casing of a string, modelling Python `str.lower()` (the
inputs of interest are ASCII keywords and titles). -/
def toLowerStr (s : String) : String :=
  ⟨s.data.map Char.toLower⟩

/-- The check `leadsWith needle hay`: whether that `needle` occurs at the front of
`hay`. -/
def leadsWith : List Char → List Char → Bool
  | [], _ => true
  | _ :: _, [] => false
  | a :: as, b :: bs => a == b && leadsWith as bs

/-- The check `hasSub needle hay` models Python's substring test
`needle in hay`. -/
def hasSub (needle : List Char) : List Char → Bool
  | [] => leadsWith needle []
  | c :: rest => leadsWith needle (c :: rest) || hasSub needle rest

/-- Substring test on strings (case-sensitive; callers lower-case
first, as the Python code does). -/
def strContains (hay needle : String) : Bool :=
  hasSub needle.data hay.data

/-- Python slicing `s[:n]`, by code points. -/
def sliceTo (s : String) (n : ℕ) : String :=
  ⟨s.data.take n⟩

/-- The combined lower-cased text
`f"{title.lower()} {description.lower() if description else ''}"` used
by the metadata heuristics. -/
def combinedText (title : String) (description : Option String) : String :=
  toLowerStr title ++ " " ++ (match description with
    | some d => toLowerStr d
    | none => "")

/-! ## Enumerations (`schemas.py`) -/

/-- Model of `ComponentType` from `schemas.py`. -/
inductive ComponentType where
  | CPU | RAM | GPU | MOTHERBOARD | PSU | COOLER | STORAGE | CABLES
deriving DecidableEq, Repr

/-- The string value of a `ComponentType` member. -/
def ComponentType.value : ComponentType → String
  | .CPU => "CPU"
  | .RAM => "RAM"
  | .GPU => "GPU"
  | .MOTHERBOARD => "Motherboard"
  | .PSU => "PSU"
  | .COOLER => "Cooler"
  | .STORAGE => "Storage"
  | .CABLES => "Cables"

/-- Model of `ActionType` from `schemas.py`. -/
inductive ActionType where
  | INSERT | MOUNT | CONNECT | ALIGN | LOCK | REMOVE
deriving DecidableEq, Repr

/-- The string value of an `ActionType` member. -/
def ActionType.value : ActionType → String
  | .INSERT => "insert"
  | .MOUNT => "mount"
  | .CONNECT => "connect"
  | .ALIGN => "align"
  | .LOCK => "lock"
  | .REMOVE => "remove"

/-- Model of `Platform` from `schemas.py`. -/
inductive Platform where
  | AM4 | AM5 | LGA1700 | LGA1200 | UNKNOWN
deriving DecidableEq, Repr

/-- The string value of a `Platform` member. -/
def Platform.value : Platform → String
  | .AM4 => "AM4"
  | .AM5 => "AM5"
  | .LGA1700 => "LGA1700"
  | .LGA1200 => "LGA1200"
  | .UNKNOWN => "unknown"

/-- Model of `FormFactor` from `schemas.py`. -/
inductive FormFactor where
  | ATX | MATX | ITX | EATX | UNKNOWN
deriving DecidableEq, Repr

/-- The string value of a `FormFactor` member. -/
def FormFactor.value : FormFactor → String
  | .ATX => "ATX"
  | .MATX => "mATX"
  | .ITX => "ITX"
  | .EATX => "EATX"
  | .UNKNOWN => "unknown"

/-- Model of `VideoType` from `schemas.py`. -/
inductive VideoType where
  | FULL_BUILD | CPU_INSTALL | COOLER_INSTALL | RAM_INSTALL | GPU_INSTALL | CABLE_MANAGEMENT
deriving DecidableEq, Repr

/-- The string value of a `VideoType` member. -/
def VideoType.value : VideoType → String
  | .FULL_BUILD => "full_build"
  | .CPU_INSTALL => "cpu_install"
  | .COOLER_INSTALL => "cooler_install"
  | .RAM_INSTALL => "ram_install"
  | .GPU_INSTALL => "gpu_install"
  | .CABLE_MANAGEMENT => "cable_management"

/-- Model of `SkillLevel` from `schemas.py`. -/
inductive SkillLevel where
  | BEGINNER | INTERMEDIATE | ADVANCED
deriving DecidableEq, Repr

/-- The string value of a `SkillLevel` member. -/
def SkillLevel.value : SkillLevel → String
  | .BEGINNER => "beginner"
  | .INTERMEDIATE => "intermediate"
  | .ADVANCED => "advanced"

/-- Model of `SourceConfidence` from `schemas.py`. -/
inductive SourceConfidence where
  | EXPLICITLY_SHOWN | VERBALLY_EXPLAINED | INFERRED
deriving DecidableEq, Repr

/-- The string value of a `SourceConfidence` member. -/
def SourceConfidence.value : SourceConfidence → String
  | .EXPLICITLY_SHOWN => "explicitly_shown"
  | .VERBALLY_EXPLAINED => "verbally_explained"
  | .INFERRED => "inferred"

/-! ## Data model (`schemas.py`) -/

/-- Model of `VideoMetadata` from `schemas.py`. -/
structure VideoMetadata where
  video_id : String
  title : String
  channel_name : String
  url : String
  video_type : VideoType
  skill_level : SkillLevel
  platform : Option Platform := none
  form_factor : Option FormFactor := none
  duration_seconds : Option ℚ := none
  upload_date : Option String := none
  description : Option String := none
deriving DecidableEq, Repr

/-- Model of `Timestamp` from `schemas.py`: a start/end pair in seconds.  The
pydantic model declares the two float fields and no validator, so the
structure itself imposes no relation between them. -/
structure Timestamp where
  start : ℚ
  «end» : ℚ
deriving DecidableEq, Repr

/-- Model of `AssemblyStep` from `schemas.py`. -/
structure AssemblyStep where
  component : ComponentType
  action : ActionType
  platform : Platform := .UNKNOWN
  form_factor : FormFactor := .UNKNOWN
  step_order : Option ℤ := none
  description : String
  visual_cues : List String := []
  common_errors : List String := []
  timestamp : Timestamp
  video_id : String
  source_confidence : SourceConfidence
deriving DecidableEq, Repr

/-- Model of `ProcessedVideo` from `schemas.py`. -/
structure ProcessedVideo where
  metadata : VideoMetadata
  assembly_steps : List AssemblyStep
  twelve_labs_video_id : Option String := none
  processing_timestamp : Option String := none
  total_steps_extracted : ℤ := 0
deriving DecidableEq, Repr

/-- Model of `SemanticQuery` from `schemas.py`. -/
structure SemanticQuery where
  query_text : String
  component : Option ComponentType := none
  action : Option ActionType := none
  search_confidence_threshold : ℚ := 7/10
deriving DecidableEq, Repr

/-! ## Search results (`twelve_labs_client.py`)

A module entry returned by the search service is an arbitrary value
that may or may not be a dict carrying a `"value"` key
(`isinstance(conv, dict) and "value" in conv`); we model an entry as
either `withValue v` or `other`. -/

/-- One element of a module's `conversation`/`visual` list. -/
inductive Evidence where
  | withValue (value : String)
  | other
deriving DecidableEq, Repr

/-- The `"value"` carried by an evidence entry, if any. -/
def Evidence.valueOf : Evidence → Option String
  | .withValue v => some v
  | .other => none

/-- One `modules` entry of a normalized search hit.  A missing or
falsy (`[]`) `conversation`/`visual` key is modelled by the empty
list, which the extraction loop treats identically. -/
structure SearchModule where
  conversation : List Evidence := []
  visual : List Evidence := []
deriving DecidableEq, Repr

/-- A normalized search hit as built by
`TwelveLabsClient.search_semantic` and consumed (via `.get` with
defaults) by `StepExtractor._result_to_assembly_step`.  Possibly
missing keys are `Option` fields. -/
structure SearchResult where
  video_id : Option String := none
  score : Option ℚ := none
  confidence : Option String := none
  start : Option ℚ := none
  «end» : Option ℚ := none
  modules : List SearchModule := []
deriving DecidableEq, Repr

/-- A raw clip record delivered by the external search transport; its
attributes are always present (`clip.video_id`, `clip.score`, ...). -/
structure Clip where
  video_id : String
  score : ℚ
  confidence : String
  start : ℚ
  «end» : ℚ
  modules : List SearchModule := []
deriving DecidableEq, Repr

/-- Normalization of one clip into the hit record `search_semantic`
returns (every key present). -/
def normalizeClip (c : Clip) : SearchResult :=
  { video_id := some c.video_id
    score := some c.score
    confidence := some c.confidence
    start := some c.start
    «end» := some c.«end»
    modules := c.modules }

/-! ## Metadata heuristics (`video_metadata_extractor.py`) -/

/-- The platform-keyword test used by `infer_platform`, as a substring
test over the combined lower-cased text. -/
def kw (k : String) (c : String) : Bool :=
  strContains c k

/-- Model of `VideoMetadataExtractor.infer_platform`: keyword chains over the
combined lower-cased title/description, first match wins, `none` when
nothing matches. -/
def infer_platform (title : String) (description : Option String) : Option Platform :=
  let c := combinedText title description
  if kw "am5" c || kw "ryzen 7000" c || kw "ryzen 9000" c then
    some Platform.AM5
  else if kw "am4" c || kw "ryzen 5000" c || kw "ryzen 3000" c then
    some Platform.AM4
  else if kw "lga1700" c || kw "12th gen" c || kw "13th gen" c || kw "14th gen" c then
    some Platform.LGA1700
  else if kw "lga1200" c || kw "10th gen" c || kw "11th gen" c then
    some Platform.LGA1200
  else
    none

/-- The exclusion phrases of `validate_video_content`. -/
def exclude_keywords : List String :=
  ["unboxing only", "reaction video", "roast",
   "fails compilation", "worst builds ever"]

/-- The PC-related phrases of `validate_video_content`. -/
def pc_related_keywords : List String :=
  ["pc", "computer", "gaming rig", "build",
   "cpu", "gpu", "motherboard", "ram", "graphics",
   "components", "parts", "install", "setup",
   "assembly", "tutorial", "guide", "how to"]

/-- Model of `VideoMetadataExtractor.validate_video_content`: reject on any
exclusion phrase, otherwise accept exactly when some PC-related phrase
occurs. -/
def validate_video_content (metadata : VideoMetadata) : Bool :=
  let c := combinedText metadata.title metadata.description
  if exclude_keywords.any (fun k => kw k c) then
    false
  else if pc_related_keywords.any (fun k => kw k c) then
    true
  else
    false

/-! ## Indexing client (`twelve_labs_client.py`)

`upload_video` and `search_semantic` guard on `self.index_id` before
touching the network.  To make "no external call happens" a provable
statement, each operation returns, next to its `Except` result, the
trace of external calls it issued; the guard branch returns an empty
trace.  The blocking polling loops of `upload_video` are collapsed to
the final outcome the external service eventually delivers, supplied
as an explicit `UploadOutcome` argument. -/

/-- An outbound call to an external collaborator. -/
inductive ExtCall where
  | download (url : String)
  | createTask (index_id : String)
  | pollTask
  | pollVideo
  | search (index_id : String) (query_text : String)
deriving DecidableEq, Repr

/-- The eventual outcome of the external interactions of one
`upload_video` run: the cached/downloaded file path, the terminal task
status, and the service video id. -/
structure UploadOutcome where
  downloaded_path : String
  final_status : String
  service_video_id : String
deriving DecidableEq, Repr

/-- The error raised by both `upload_video` and `search_semantic` when
`self.index_id` is unset. -/
def indexNotSetMsg : String :=
  "Index ID not set. Create or specify an index first."

/-- Model of `TwelveLabsClient.upload_video` (with `wait_for_completion`):
guard on the index id, then download, create the upload task and poll
to the terminal status; `ready` yields the service video id, any
`failed`/`error` status raises. -/
def upload_video (index_id : Option String) (video_url : String)
    (ext : UploadOutcome) : Except String String × List ExtCall :=
  match index_id with
  | none => (.error indexNotSetMsg, [])
  | some idx =>
      let calls := [ExtCall.download video_url, ExtCall.createTask idx, ExtCall.pollTask]
      if ext.final_status = "ready" then
        (.ok ext.service_video_id, calls ++ [ExtCall.pollVideo])
      else
        (.error ("Video upload failed with status: " ++ ext.final_status),
         calls)

/-- The client-side result-collection loop of `search_semantic`: stop
as soon as `page_limit` results have been gathered, normalize each
remaining clip. -/
def collectResults (clips : List Clip) (page_limit : ℕ) : List SearchResult :=
  (clips.take page_limit).map normalizeClip

/-- Model of `TwelveLabsClient.search_semantic`: guard on the index id, issue
one scoped search call (the transport's reply is the `clips`
argument), and normalize at most `page_limit` hits client-side. -/
def search_semantic (index_id : Option String) (query : SemanticQuery)
    (clips : List Clip) (page_limit : ℕ) :
    Except String (List SearchResult) × List ExtCall :=
  match index_id with
  | none => (.error indexNotSetMsg, [])
  | some idx =>
      (.ok (collectResults clips page_limit),
       [ExtCall.search idx query.query_text])

/-! ## Step extraction (`step_extractor.py`) -/

/-- The confidence mapping of `_result_to_assembly_step`
(`step_extractor.py` lines 164-169): an if/elif chain over the hit's
confidence label and relevance score. -/
def sourceConfidenceOf (confidence : String) (score : ℚ) : SourceConfidence :=
  if confidence = "high" ∨ (0.8 : ℚ) < score then
    SourceConfidence.EXPLICITLY_SHOWN
  else if confidence = "medium" ∨ (0.6 : ℚ) < score then
    SourceConfidence.VERBALLY_EXPLAINED
  else
    SourceConfidence.INFERRED

/-- The `description_parts` collection of `_result_to_assembly_step`:
every `"value"` of every dict entry of every module's `conversation`
list, in order. -/
def descriptionParts (result : SearchResult) : List String :=
  (result.modules.map (fun m => m.conversation.filterMap Evidence.valueOf)).flatten

/-- The `visual_cues` collection of `_result_to_assembly_step`: every
`"value"` of every dict entry of every module's `visual` list. -/
def visualCuesOf (result : SearchResult) : List String :=
  (result.modules.map (fun m => m.visual.filterMap Evidence.valueOf)).flatten

/-- The placeholder `f"Assembly step for {expected_component or
'component'}"` used when a hit carries no textual evidence. -/
def placeholderDescription (expected_component : Option ComponentType) : String :=
  "Assembly step for " ++ (match expected_component with
    | some c => c.value
    | none => "component")

/-- The synthesized description of `_result_to_assembly_step`: the
space-joined conversation values, or the placeholder when there are
none, sliced to 500 characters. -/
def descriptionOf (result : SearchResult)
    (expected_component : Option ComponentType) : String :=
  let parts := descriptionParts result
  let description :=
    if parts ≠ [] then String.intercalate " " parts
    else placeholderDescription expected_component
  sliceTo description 500

/-- Model of `StepExtractor._detect_component`: ordered keyword dispatch with a
Motherboard default. -/
def detect_component (text : String) : ComponentType :=
  let t := toLowerStr text
  if ["cpu", "processor", "ryzen", "intel"].any (fun w => strContains t w) then
    ComponentType.CPU
  else if ["ram", "memory", "dimm"].any (fun w => strContains t w) then
    ComponentType.RAM
  else if ["gpu", "graphics card", "video card"].any (fun w => strContains t w) then
    ComponentType.GPU
  else if ["cooler", "heatsink", "fan"].any (fun w => strContains t w) then
    ComponentType.COOLER
  else if ["psu", "power supply"].any (fun w => strContains t w) then
    ComponentType.PSU
  else if ["ssd", "nvme", "storage", "hard drive"].any (fun w => strContains t w) then
    ComponentType.STORAGE
  else if ["motherboard", "mobo"].any (fun w => strContains t w) then
    ComponentType.MOTHERBOARD
  else if ["cable", "wire", "connector"].any (fun w => strContains t w) then
    ComponentType.CABLES
  else
    ComponentType.MOTHERBOARD

/-- Model of `StepExtractor._detect_action`: ordered keyword dispatch with an
insert default. -/
def detect_action (text : String) : ActionType :=
  let t := toLowerStr text
  if ["insert", "installing", "install", "put in", "slot in"].any (fun w => strContains t w) then
    ActionType.INSERT
  else if ["mount", "mounting", "screw", "attach"].any (fun w => strContains t w) then
    ActionType.MOUNT
  else if ["connect", "plug", "cable", "wire"].any (fun w => strContains t w) then
    ActionType.CONNECT
  else if ["align", "orientation", "direction", "arrow"].any (fun w => strContains t w) then
    ActionType.ALIGN
  else if ["lock", "latch", "secure", "clip"].any (fun w => strContains t w) then
    ActionType.LOCK
  else if ["remove", "take out", "uninstall"].any (fun w => strContains t w) then
    ActionType.REMOVE
  else
    ActionType.INSERT

/-- The trigger-phrase table of `StepExtractor._extract_errors`. -/
def error_phrases : List (String × String) :=
  [("don't force", "Do not apply excessive force"),
   ("avoid touching", "Avoid touching sensitive components"),
   ("wrong orientation", "Incorrect orientation"),
   ("pins bent", "Risk of bent pins"),
   ("not aligned", "Component not properly aligned"),
   ("forget to", "May forget this step"),
   ("common mistake", "Common mistake"),
   ("be careful", "Exercise caution"),
   ("damage", "Risk of component damage")]

/-- Model of `StepExtractor._extract_errors`: all canned messages whose trigger
occurs in the lower-cased text, in table order. -/
def extract_errors (text : String) : List String :=
  let t := toLowerStr text
  (error_phrases.filter (fun p => strContains t p.1)).map (fun p => p.2)

/-- Model of `StepExtractor._result_to_assembly_step`: build one `AssemblyStep`
from a normalized hit.  The Python body wraps the construction in
`try/except` returning `None` on a validation error; the pydantic
model carries no constraint a value produced here can violate, so the
embedding builds the step directly. -/
def result_to_assembly_step (result : SearchResult) (metadata : VideoMetadata)
    (expected_component : Option ComponentType)
    (expected_action : Option ActionType) : AssemblyStep :=
  let timestamp : Timestamp :=
    { start := result.start.getD 0, «end» := result.«end».getD 0 }
  let score := result.score.getD 0
  let confidence := result.confidence.getD "low"
  let source_confidence := sourceConfidenceOf confidence score
  let description := descriptionOf result expected_component
  { component := expected_component.getD (detect_component description)
    action := expected_action.getD (detect_action description)
    platform := metadata.platform.getD Platform.UNKNOWN
    form_factor := metadata.form_factor.getD FormFactor.UNKNOWN
    step_order := none
    description := description
    visual_cues := (visualCuesOf result).take 5
    common_errors := extract_errors description
    timestamp := timestamp
    video_id := metadata.video_id
    source_confidence := source_confidence }

/-- The sort key relation of `all_steps.sort(key=lambda x:
x.timestamp.start)`. -/
def stepLE (a b : AssemblyStep) : Prop :=
  a.timestamp.start ≤ b.timestamp.start

instance : DecidableRel stepLE := fun a b =>
  inferInstanceAs (Decidable (a.timestamp.start ≤ b.timestamp.start))

instance : IsTotal AssemblyStep stepLE :=
  ⟨fun a b => le_total a.timestamp.start b.timestamp.start⟩

instance : IsTrans AssemblyStep stepLE :=
  ⟨fun _ _ _ h h' => le_trans h h'⟩

instance : IsRefl AssemblyStep stepLE :=
  ⟨fun a => le_refl a.timestamp.start⟩

/-- The stable ascending sort of the collected steps by
`timestamp.start` (Python `list.sort` is stable; a stable
insertion sort is an exact model). -/
def sortSteps (steps : List AssemblyStep) : List AssemblyStep :=
  steps.insertionSort stepLE

/-- The `step_order` assignment loop (`for idx, step in
enumerate(all_steps): step.step_order = idx + 1`), with `i` the index
of the first element. -/
def numberSteps (i : ℕ) : List AssemblyStep → List AssemblyStep
  | [] => []
  | s :: rest => { s with step_order := some ((i : ℤ) + 1) } :: numberSteps (i + 1) rest

/-- The hit-accumulation loop of `extract_steps_from_video`: for each
query, every hit becomes a step. -/
def collectSteps (metadata : VideoMetadata)
    (query_results : List (SemanticQuery × List SearchResult)) : List AssemblyStep :=
  (query_results.map (fun qr =>
    qr.2.map (fun r => result_to_assembly_step r metadata qr.1.component qr.1.action))).flatten

/-- The pure core of `StepExtractor.extract_steps_from_video`: the
per-query search replies are given as `query_results`; the collected
steps are sorted by `timestamp.start` (stably) and numbered from 1. -/
def extract_steps_from_video (metadata : VideoMetadata)
    (query_results : List (SemanticQuery × List SearchResult)) : List AssemblyStep :=
  numberSteps 0 (sortSteps (collectSteps metadata query_results))

/-! ## Pipeline (`pipeline.py`) -/

/-- The content-mismatch error message of `process_video`. -/
def contentMismatchMsg : String :=
  "Video does not appear to be a PC building tutorial. Use skip_validation=True to process anyway."

/-- The pure core of `PCBuildVideoPipeline.process_video`: the
external interactions (metadata fetch, upload, per-query search
replies, wall clock) are given as arguments; the validation gate runs
unless skipped, then the steps are extracted and the `ProcessedVideo`
assembled. -/
def process_video (skip_validation : Bool) (metadata : VideoMetadata)
    (twelve_labs_video_id : String)
    (query_results : List (SemanticQuery × List SearchResult))
    (processing_timestamp : String) : Except String ProcessedVideo :=
  if !skip_validation && !(validate_video_content metadata) then
    .error contentMismatchMsg
  else
    let assembly_steps := extract_steps_from_video metadata query_results
    .ok { metadata := metadata
          assembly_steps := assembly_steps
          twelve_labs_video_id := some twelve_labs_video_id
          processing_timestamp := some processing_timestamp
          total_steps_extracted := (assembly_steps.length : ℤ) }

/-! ## Persistence (`pipeline.py` `save_results`/`load_results`)

`save_results` writes `json.dump(result.model_dump(), f)`;
`load_results` reads `json.load(f)` and validates with
`ProcessedVideo(**data)`.  The JSON text itself round-trips the
document verbatim, so the embedding works at the level of JSON values:
`JVal` is the JSON value tree (numbers as `ℚ`), `save_results` is the
serializer producing the exact document layout `model_dump` emits
(fields in declaration order, enums as their string values, `None` as
`null`), and `load_results` validates that layout back into a
`ProcessedVideo`. -/

/-- A JSON value; numbers are exact rationals. -/
inductive JVal where
  | null
  | str (s : String)
  | num (q : ℚ)
  | arr (items : List JVal)
  | obj (fields : List (String × JVal))

/-- Encode an optional string (`null` for `None`). -/
def encOptStr : Option String → JVal
  | none => JVal.null
  | some s => JVal.str s

/-- Encode an optional rational (`null` for `None`). -/
def encOptNum : Option ℚ → JVal
  | none => JVal.null
  | some q => JVal.num q

/-- Serialized `Timestamp`. -/
def encTimestamp (t : Timestamp) : JVal :=
  JVal.obj [("start", JVal.num t.start), ("end", JVal.num t.«end»)]

/-- Serialized `VideoMetadata` (field order follows the pydantic
declaration order, which `model_dump` preserves). -/
def encVideoMetadata (m : VideoMetadata) : JVal :=
  JVal.obj
    [("video_id", JVal.str m.video_id),
     ("title", JVal.str m.title),
     ("channel_name", JVal.str m.channel_name),
     ("url", JVal.str m.url),
     ("video_type", JVal.str m.video_type.value),
     ("skill_level", JVal.str m.skill_level.value),
     ("platform", encOptStr (m.platform.map Platform.value)),
     ("form_factor", encOptStr (m.form_factor.map FormFactor.value)),
     ("duration_seconds", encOptNum m.duration_seconds),
     ("upload_date", encOptStr m.upload_date),
     ("description", encOptStr m.description)]

/-- Encode an optional `step_order` integer. -/
def encOptInt : Option ℤ → JVal
  | none => JVal.null
  | some z => JVal.num (z : ℚ)

/-- Serialized `AssemblyStep` (enums appear as their string values:
the model sets `use_enum_values`, and the JSON encoder writes str-enum
members as their value in either case). -/
def encAssemblyStep (s : AssemblyStep) : JVal :=
  JVal.obj
    [("component", JVal.str s.component.value),
     ("action", JVal.str s.action.value),
     ("platform", JVal.str s.platform.value),
     ("form_factor", JVal.str s.form_factor.value),
     ("step_order", encOptInt s.step_order),
     ("description", JVal.str s.description),
     ("visual_cues", JVal.arr (s.visual_cues.map JVal.str)),
     ("common_errors", JVal.arr (s.common_errors.map JVal.str)),
     ("timestamp", encTimestamp s.timestamp),
     ("video_id", JVal.str s.video_id),
     ("source_confidence", JVal.str s.source_confidence.value)]

/-- The document written by `PCBuildVideoPipeline.save_results`. -/
def save_results (r : ProcessedVideo) : JVal :=
  JVal.obj
    [("metadata", encVideoMetadata r.metadata),
     ("assembly_steps", JVal.arr (r.assembly_steps.map encAssemblyStep)),
     ("twelve_labs_video_id", encOptStr r.twelve_labs_video_id),
     ("processing_timestamp", encOptStr r.processing_timestamp),
     ("total_steps_extracted", JVal.num (r.total_steps_extracted : ℚ))]

/-- Validate a string back into a `VideoType` member. -/
def decVideoType : JVal → Option VideoType
  | JVal.str "full_build" => some .FULL_BUILD
  | JVal.str "cpu_install" => some .CPU_INSTALL
  | JVal.str "cooler_install" => some .COOLER_INSTALL
  | JVal.str "ram_install" => some .RAM_INSTALL
  | JVal.str "gpu_install" => some .GPU_INSTALL
  | JVal.str "cable_management" => some .CABLE_MANAGEMENT
  | _ => none

/-- Validate a string back into a `SkillLevel` member. -/
def decSkillLevel : JVal → Option SkillLevel
  | JVal.str "beginner" => some .BEGINNER
  | JVal.str "intermediate" => some .INTERMEDIATE
  | JVal.str "advanced" => some .ADVANCED
  | _ => none

/-- Validate an optional platform. -/
def decOptPlatform : JVal → Option (Option Platform)
  | JVal.null => some none
  | JVal.str "AM4" => some (some .AM4)
  | JVal.str "AM5" => some (some .AM5)
  | JVal.str "LGA1700" => some (some .LGA1700)
  | JVal.str "LGA1200" => some (some .LGA1200)
  | JVal.str "unknown" => some (some .UNKNOWN)
  | _ => none

/-- Validate an optional form factor. -/
def decOptFormFactor : JVal → Option (Option FormFactor)
  | JVal.null => some none
  | JVal.str "ATX" => some (some .ATX)
  | JVal.str "mATX" => some (some .MATX)
  | JVal.str "ITX" => some (some .ITX)
  | JVal.str "EATX" => some (some .EATX)
  | JVal.str "unknown" => some (some .UNKNOWN)
  | _ => none

/-- Validate a `ComponentType` value string. -/
def decComponent : JVal → Option ComponentType
  | JVal.str "CPU" => some .CPU
  | JVal.str "RAM" => some .RAM
  | JVal.str "GPU" => some .GPU
  | JVal.str "Motherboard" => some .MOTHERBOARD
  | JVal.str "PSU" => some .PSU
  | JVal.str "Cooler" => some .COOLER
  | JVal.str "Storage" => some .STORAGE
  | JVal.str "Cables" => some .CABLES
  | _ => none

/-- Validate an `ActionType` value string. -/
def decAction : JVal → Option ActionType
  | JVal.str "insert" => some .INSERT
  | JVal.str "mount" => some .MOUNT
  | JVal.str "connect" => some .CONNECT
  | JVal.str "align" => some .ALIGN
  | JVal.str "lock" => some .LOCK
  | JVal.str "remove" => some .REMOVE
  | _ => none

/-- Validate a `Platform` value string. -/
def decPlatform : JVal → Option Platform
  | JVal.str "AM4" => some .AM4
  | JVal.str "AM5" => some .AM5
  | JVal.str "LGA1700" => some .LGA1700
  | JVal.str "LGA1200" => some .LGA1200
  | JVal.str "unknown" => some .UNKNOWN
  | _ => none

/-- Validate a `FormFactor` value string. -/
def decFormFactor : JVal → Option FormFactor
  | JVal.str "ATX" => some .ATX
  | JVal.str "mATX" => some .MATX
  | JVal.str "ITX" => some .ITX
  | JVal.str "EATX" => some .EATX
  | JVal.str "unknown" => some .UNKNOWN
  | _ => none

/-- Validate a `SourceConfidence` value string. -/
def decSourceConfidence : JVal → Option SourceConfidence
  | JVal.str "explicitly_shown" => some .EXPLICITLY_SHOWN
  | JVal.str "verbally_explained" => some .VERBALLY_EXPLAINED
  | JVal.str "inferred" => some .INFERRED
  | _ => none

/-- Validate an optional string. -/
def decOptStr : JVal → Option (Option String)
  | JVal.null => some none
  | JVal.str s => some (some s)
  | _ => none

/-- Validate an optional number. -/
def decOptNum : JVal → Option (Option ℚ)
  | JVal.null => some none
  | JVal.num q => some (some q)
  | _ => none

/-- Validate an integer (a JSON number with denominator 1). -/
def decInt : JVal → Option ℤ
  | JVal.num q => if q.den = 1 then some q.num else none
  | _ => none

/-- Validate an optional integer. -/
def decOptInt : JVal → Option (Option ℤ)
  | JVal.null => some none
  | j => (decInt j).map some

/-- Validate a list of strings. -/
def decStrList : JVal → Option (List String)
  | JVal.arr items =>
      items.foldr (fun j acc => do
        match j with
        | JVal.str s => do pure (s :: (← acc))
        | _ => none) (some [])
  | _ => none

/-- Validate a `Timestamp` document. -/
def decTimestamp : JVal → Option Timestamp
  | JVal.obj [("start", JVal.num a), ("end", JVal.num b)] =>
      some { start := a, «end» := b }
  | _ => none

/-- Validate a plain string. -/
def decStr : JVal → Option String
  | JVal.str s => some s
  | _ => none

/-- Validate a `VideoMetadata` document. -/
def decVideoMetadata : JVal → Option VideoMetadata
  | JVal.obj [(k1, v1), (k2, v2), (k3, v3), (k4, v4), (k5, v5), (k6, v6),
      (k7, v7), (k8, v8), (k9, v9), (k10, v10), (k11, v11)] =>
      if k1 = "video_id" ∧ k2 = "title" ∧ k3 = "channel_name" ∧ k4 = "url"
          ∧ k5 = "video_type" ∧ k6 = "skill_level" ∧ k7 = "platform"
          ∧ k8 = "form_factor" ∧ k9 = "duration_seconds" ∧ k10 = "upload_date"
          ∧ k11 = "description" then do
        let vid ← decStr v1
        let title ← decStr v2
        let channel ← decStr v3
        let url ← decStr v4
        let vt ← decVideoType v5
        let sl ← decSkillLevel v6
        let p ← decOptPlatform v7
        let ff ← decOptFormFactor v8
        let dur ← decOptNum v9
        let ud ← decOptStr v10
        let ds ← decOptStr v11
        pure { video_id := vid, title := title, channel_name := channel, url := url,
               video_type := vt, skill_level := sl, platform := p, form_factor := ff,
               duration_seconds := dur, upload_date := ud, description := ds }
      else none
  | _ => none

/-- Validate an `AssemblyStep` document. -/
def decAssemblyStep : JVal → Option AssemblyStep
  | JVal.obj [(k1, v1), (k2, v2), (k3, v3), (k4, v4), (k5, v5), (k6, v6),
      (k7, v7), (k8, v8), (k9, v9), (k10, v10), (k11, v11)] =>
      if k1 = "component" ∧ k2 = "action" ∧ k3 = "platform"
          ∧ k4 = "form_factor" ∧ k5 = "step_order" ∧ k6 = "description"
          ∧ k7 = "visual_cues" ∧ k8 = "common_errors" ∧ k9 = "timestamp"
          ∧ k10 = "video_id" ∧ k11 = "source_confidence" then do
        let comp ← decComponent v1
        let act ← decAction v2
        let p ← decPlatform v3
        let ff ← decFormFactor v4
        let so ← decOptInt v5
        let desc ← decStr v6
        let vc ← decStrList v7
        let ce ← decStrList v8
        let ts ← decTimestamp v9
        let vid ← decStr v10
        let sc ← decSourceConfidence v11
        pure { component := comp, action := act, platform := p, form_factor := ff,
               step_order := so, description := desc, visual_cues := vc,
               common_errors := ce, timestamp := ts, video_id := vid,
               source_confidence := sc }
      else none
  | _ => none

/-- Validate a list of `AssemblyStep` documents. -/
def decStepList : List JVal → Option (List AssemblyStep)
  | [] => some []
  | j :: js => do
      let s ← decAssemblyStep j
      let rest ← decStepList js
      pure (s :: rest)

/-- Validate a JSON array of `AssemblyStep` documents. -/
def decSteps : JVal → Option (List AssemblyStep)
  | JVal.arr items => decStepList items
  | _ => none

/-- Model of `PCBuildVideoPipeline.load_results`: validate the saved document
back into a `ProcessedVideo`. -/
def load_results : JVal → Option ProcessedVideo
  | JVal.obj [(k1, v1), (k2, v2), (k3, v3), (k4, v4), (k5, v5)] =>
      if k1 = "metadata" ∧ k2 = "assembly_steps" ∧ k3 = "twelve_labs_video_id"
          ∧ k4 = "processing_timestamp" ∧ k5 = "total_steps_extracted" then do
        let md ← decVideoMetadata v1
        let steps ← decSteps v2
        let tlid ← decOptStr v3
        let pts ← decOptStr v4
        let total ← decInt v5
        pure { metadata := md, assembly_steps := steps, twelve_labs_video_id := tlid,
               processing_timestamp := pts, total_steps_extracted := total }
      else none
  | _ => none

/-! ## Concrete sample data (used by witnesses and counterexamples) -/

/-- A sample metadata record (AM5 build video). -/
def mdEx : VideoMetadata :=
  { video_id := "abc123"
    title := "Building AM5 Ryzen 9000 PC"
    channel_name := "PC Channel"
    url := "https://youtube.com/watch?v=abc123"
    video_type := .FULL_BUILD
    skill_level := .BEGINNER
    platform := some .AM5 }

/-- A sample metadata record matching an exclusion phrase (and PC
terms). -/
def mdExcl : VideoMetadata :=
  { video_id := "w0"
    title := "Worst builds ever - PC fails compilation"
    channel_name := "ch"
    url := "u"
    video_type := .FULL_BUILD
    skill_level := .INTERMEDIATE }

/-- The predefined CPU-insertion query. -/
def queryCPU : SemanticQuery :=
  { query_text := "Show when the CPU is inserted into the motherboard socket"
    component := some .CPU
    action := some .INSERT }

/-- The predefined RAM-insertion query. -/
def queryRAM : SemanticQuery :=
  { query_text := "Find moments where RAM memory modules are installed into slots"
    component := some .RAM
    action := some .INSERT }

/-- A sample high-confidence CPU hit (visual evidence only). -/
def hitCPU : SearchResult :=
  { video_id := some "tl1"
    score := some 0.9
    confidence := some "high"
    start := some 120
    «end» := some 135
    modules := [{ conversation := []
                  visual := [Evidence.withValue "CPU aligned with socket arrow"] }] }

/-- A sample low-confidence RAM hit (conversation evidence only). -/
def hitRAM : SearchResult :=
  { video_id := some "tl1"
    score := some 0.55
    confidence := some "low"
    start := some 40
    «end» := some 50
    modules := [{ conversation := [Evidence.withValue "now we insert the RAM"]
                  visual := [] }] }

/-- Sample per-query search replies. -/
def qrsEx : List (SemanticQuery × List SearchResult) :=
  [(queryCPU, [hitCPU]), (queryRAM, [hitRAM])]

/-- A placeholder step used as the out-of-range default of
`List.getD`. -/
def dfltStep : AssemblyStep :=
  { component := .CPU
    action := .INSERT
    description := ""
    timestamp := { start := 0, «end» := 0 }
    video_id := ""
    source_confidence := .INFERRED }

/-- Erase the `step_order` field (used to compare steps before and
after the numbering pass). -/
def clearOrder (s : AssemblyStep) : AssemblyStep :=
  { s with step_order := none }

/-! ## Claim theorems -/

/-- C1: the derived source confidence of every converted hit is the
pure function `sourceConfidenceOf` of the hit's confidence label
(default "low") and relevance score (default 0); that function yields
`explicitly_shown` iff the label is "high" or the score exceeds 0.8,
otherwise `verbally_explained` iff the label is "medium" or the score
exceeds 0.6, otherwise `inferred`; at the boundary, score 0.8 does not
reach `explicitly_shown` through the score path while 0.81 does. -/
theorem confidence_mapping_spec (label : String) (score : ℚ)
    (result : SearchResult) (metadata : VideoMetadata)
    (ec : Option ComponentType) (ea : Option ActionType) :
    ((result_to_assembly_step result metadata ec ea).source_confidence
        = sourceConfidenceOf (result.confidence.getD "low") (result.score.getD 0))
    ∧ (sourceConfidenceOf label score = .EXPLICITLY_SHOWN
        ↔ (label = "high" ∨ (0.8 : ℚ) < score))
    ∧ (sourceConfidenceOf label score = .VERBALLY_EXPLAINED
        ↔ (¬(label = "high" ∨ (0.8 : ℚ) < score)
            ∧ (label = "medium" ∨ (0.6 : ℚ) < score)))
    ∧ (sourceConfidenceOf label score = .INFERRED
        ↔ (¬(label = "high" ∨ (0.8 : ℚ) < score)
            ∧ ¬(label = "medium" ∨ (0.6 : ℚ) < score)))
    ∧ (label ≠ "high" → sourceConfidenceOf label (0.8 : ℚ) ≠ .EXPLICITLY_SHOWN)
    ∧ sourceConfidenceOf label (0.81 : ℚ) = .EXPLICITLY_SHOWN := by
  refine ⟨rfl, ?_, ?_, ?_, ?_, ?_⟩
  · unfold sourceConfidenceOf
    split_ifs with h1 h2 <;> simp_all
  · unfold sourceConfidenceOf
    split_ifs with h1 h2 <;> simp_all
  · unfold sourceConfidenceOf
    split_ifs with h1 h2 <;> simp_all
  · intro hl
    unfold sourceConfidenceOf
    split_ifs with h1 h2 <;> simp_all
  · unfold sourceConfidenceOf
    have : (0.8 : ℚ) < 0.81 := by norm_num
    simp [this]

/-- Witness for C1 at a concrete label and score. -/
theorem confidence_mapping_spec_witness :
    "low" ≠ "high" ∧ sourceConfidenceOf "low" (0.8 : ℚ) ≠ .EXPLICITLY_SHOWN :=
  ⟨by decide,
   (confidence_mapping_spec "low" (0.8 : ℚ) hitCPU mdEx none none).2.2.2.2.1
     (by decide)⟩

/-- C4: every `ProcessedVideo` produced by `process_video` has
`total_steps_extracted` equal to the length of its `assembly_steps`
list. -/
theorem total_steps_eq_length (skip_validation : Bool)
    (metadata : VideoMetadata) (twelve_labs_video_id : String)
    (query_results : List (SemanticQuery × List SearchResult))
    (processing_timestamp : String) (pv : ProcessedVideo)
    (h : process_video skip_validation metadata twelve_labs_video_id
          query_results processing_timestamp = .ok pv) :
    pv.total_steps_extracted = pv.assembly_steps.length := by
  unfold process_video at h
  split at h
  · exact absurd h (by simp)
  · simp only [Except.ok.injEq] at h
    subst h
    rfl

/-- Witness for C4 on a concrete pipeline run. -/
theorem total_steps_eq_length_witness :
    (process_video true mdEx "tl1" qrsEx "2024-01-01T00:00:00"
        = .ok ((process_video true mdEx "tl1" qrsEx "2024-01-01T00:00:00").toOption.getD
            { metadata := mdEx, assembly_steps := [] }))
    ∧ ((process_video true mdEx "tl1" qrsEx "2024-01-01T00:00:00").toOption.getD
          { metadata := mdEx, assembly_steps := [] }).total_steps_extracted
        = (((process_video true mdEx "tl1" qrsEx "2024-01-01T00:00:00").toOption.getD
          { metadata := mdEx, assembly_steps := [] }).assembly_steps.length : ℤ) := by
  refine ⟨rfl, ?_⟩
  exact total_steps_eq_length true mdEx "tl1" qrsEx "2024-01-01T00:00:00" _ rfl

/-- C10: with the client's index id unset, `upload_video` and
`search_semantic` both return the "index id is not set" error and an
empty external-call trace (no external call is made). -/
theorem index_guard_spec (video_url : String) (ext : UploadOutcome)
    (query : SemanticQuery) (clips : List Clip) (page_limit : ℕ) :
    upload_video none video_url ext = (.error indexNotSetMsg, [])
    ∧ search_semantic none query clips page_limit = (.error indexNotSetMsg, []) :=
  ⟨rfl, rfl⟩

/-- C9: `search_semantic` returns at most `page_limit` normalized
hits, and exactly `page_limit` whenever the transport returned at
least that many clips. -/
theorem search_semantic_limit_spec (index_id : Option String)
    (query : SemanticQuery) (clips : List Clip) (page_limit : ℕ)
    (rs : List SearchResult)
    (h : (search_semantic index_id query clips page_limit).1 = .ok rs) :
    rs.length ≤ page_limit
    ∧ (page_limit ≤ clips.length → rs.length = page_limit) := by
  cases index_id with
  | none => exact absurd h (by simp [search_semantic])
  | some idx =>
      simp only [search_semantic, Except.ok.injEq] at h
      subst h
      constructor
      · simp [collectResults]
      · intro hlen
        simp [collectResults, hlen]

/-- Witness for C9: three transport clips, limit two. -/
theorem search_semantic_limit_spec_witness :
    (collectResults
        [{ video_id := "a", score := 1/2, confidence := "low", start := 0, «end» := 1 },
         { video_id := "b", score := 1/2, confidence := "low", start := 1, «end» := 2 },
         { video_id := "c", score := 1/2, confidence := "low", start := 2, «end» := 3 }]
        2).length = 2 :=
  (search_semantic_limit_spec (some "idx") queryCPU
      [{ video_id := "a", score := 1/2, confidence := "low", start := 0, «end» := 1 },
       { video_id := "b", score := 1/2, confidence := "low", start := 1, «end» := 2 },
       { video_id := "c", score := 1/2, confidence := "low", start := 2, «end» := 3 }]
      2 _ rfl).2 (by decide)

/-- C7: platform inference over the case-insensitive combined
title/description maps the AM5 keywords to AM5; maps the LGA1700
keywords to LGA1700 (when no AMD keyword, which the code checks first,
is present); returns `none` — not a default guess — when no platform
keyword of any group matches; and classifies the two concrete titles
of the claim accordingly. -/
theorem infer_platform_spec (title : String) (description : Option String) :
    ((kw "am5" (combinedText title description)
        || kw "ryzen 7000" (combinedText title description)
        || kw "ryzen 9000" (combinedText title description)) = true →
      infer_platform title description = some Platform.AM5)
    ∧ ((kw "am5" (combinedText title description)
        || kw "ryzen 7000" (combinedText title description)
        || kw "ryzen 9000" (combinedText title description)) = false →
       (kw "am4" (combinedText title description)
        || kw "ryzen 5000" (combinedText title description)
        || kw "ryzen 3000" (combinedText title description)) = false →
       (kw "lga1700" (combinedText title description)
        || kw "12th gen" (combinedText title description)
        || kw "13th gen" (combinedText title description)
        || kw "14th gen" (combinedText title description)) = true →
      infer_platform title description = some Platform.LGA1700)
    ∧ ((kw "am5" (combinedText title description)
        || kw "ryzen 7000" (combinedText title description)
        || kw "ryzen 9000" (combinedText title description)) = false →
       (kw "am4" (combinedText title description)
        || kw "ryzen 5000" (combinedText title description)
        || kw "ryzen 3000" (combinedText title description)) = false →
       (kw "lga1700" (combinedText title description)
        || kw "12th gen" (combinedText title description)
        || kw "13th gen" (combinedText title description)
        || kw "14th gen" (combinedText title description)) = false →
       (kw "lga1200" (combinedText title description)
        || kw "10th gen" (combinedText title description)
        || kw "11th gen" (combinedText title description)) = false →
      infer_platform title description = none)
    ∧ infer_platform "Building AM5 Ryzen 9000 PC" none = some Platform.AM5
    ∧ infer_platform "How to assemble your first tower" none = none := by
  refine ⟨?_, ?_, ?_, ?_, ?_⟩
  · intro h1
    simp [infer_platform, h1]
  · intro h1 h2 h3
    simp [infer_platform, h1, h2, h3]
  · intro h1 h2 h3 h4
    simp [infer_platform, h1, h2, h3, h4]
  · decide
  · decide

/-- Witness for C7: the AM5 clause applied at the concrete AM5
title. -/
theorem infer_platform_spec_witness :
    infer_platform "AM5 build walkthrough" none = some Platform.AM5 :=
  (infer_platform_spec "AM5 build walkthrough" none).1 (by decide)

/-- C8: content validation returns false on any exclusion phrase even
when PC-related terms are present; otherwise it returns true exactly
when some PC-related keyword occurs; and (with validation not
skipped) `process_video` fails with the content-mismatch error
exactly when validation returns false. -/
theorem validate_gate_spec (metadata : VideoMetadata)
    (twelve_labs_video_id : String)
    (query_results : List (SemanticQuery × List SearchResult))
    (processing_timestamp : String) :
    ((exclude_keywords.any
        (fun k => kw k (combinedText metadata.title metadata.description))) = true →
      validate_video_content metadata = false)
    ∧ ((exclude_keywords.any
        (fun k => kw k (combinedText metadata.title metadata.description))) = false →
      (validate_video_content metadata = true
        ↔ (pc_related_keywords.any
            (fun k => kw k (combinedText metadata.title metadata.description))) = true))
    ∧ (process_video false metadata twelve_labs_video_id query_results
          processing_timestamp = .error contentMismatchMsg
        ↔ validate_video_content metadata = false) := by
  refine ⟨?_, ?_, ?_⟩
  · intro h
    simp [validate_video_content, h]
  · intro h
    simp only [validate_video_content, h]
    split <;> simp_all
  · unfold process_video
    cases hv : validate_video_content metadata <;> simp [hv]

/-- Witness for C8: a title matching both an exclusion phrase and PC
terms validates to false. -/
theorem validate_gate_spec_witness :
    validate_video_content mdExcl = false :=
  (validate_gate_spec mdExcl "tl" [] "t").1 (by decide)

/-- C5: each converted hit's description is the space-joined
concatenation of all conversation evidence values, sliced to 500
characters (exactly 500 when the joined text is longer); with no
textual evidence the description is the templated placeholder naming
the query's expected component; the description never exceeds 500
characters. -/
theorem description_truncation_spec (result : SearchResult)
    (metadata : VideoMetadata) (ec : Option ComponentType)
    (ea : Option ActionType) :
    (descriptionParts result ≠ [] →
      (result_to_assembly_step result metadata ec ea).description
          = sliceTo (String.intercalate " " (descriptionParts result)) 500
      ∧ ((String.intercalate " " (descriptionParts result)).length > 500 →
          (result_to_assembly_step result metadata ec ea).description.length = 500))
    ∧ (result_to_assembly_step result metadata ec ea).description.length ≤ 500
    ∧ (descriptionParts result = [] →
      (result_to_assembly_step result metadata ec ea).description
          = placeholderDescription ec) := by
  have hdesc : (result_to_assembly_step result metadata ec ea).description
      = descriptionOf result ec := rfl
  refine ⟨?_, ?_, ?_⟩
  · intro hne
    constructor
    · rw [hdesc]
      simp [descriptionOf, hne]
    · intro hlong
      rw [hdesc]
      simp only [descriptionOf, hne, if_pos, ne_eq, not_false_iff]
      simp only [sliceTo, String.length]
      rw [List.length_take]
      have : 500 ≤ (String.intercalate " " (descriptionParts result)).length := le_of_lt hlong
      simp only [String.length] at this
      omega
  · rw [hdesc]
    unfold descriptionOf
    simp only [sliceTo, String.length]
    rw [List.length_take]
    omega
  · intro hnil
    rw [hdesc]
    simp only [descriptionOf, hnil, ne_eq, not_true_eq_false, if_false]
    have hlen : (placeholderDescription ec).data.length ≤ 500 := by
      cases ec with
      | none => decide
      | some c => cases c <;> decide
    simp [sliceTo, List.take_of_length_le hlen]

/-- Witness for C5: the RAM hit has one conversation value, so its
description is that value (30 characters, unchanged by the slice). -/
theorem description_truncation_spec_witness :
    descriptionParts hitRAM ≠ []
    ∧ (result_to_assembly_step hitRAM mdEx (some .RAM) (some .INSERT)).description
        = sliceTo (String.intercalate " " (descriptionParts hitRAM)) 500 :=
  ⟨by decide,
   ((description_truncation_spec hitRAM mdEx (some .RAM) (some .INSERT)).1
      (by decide)).1⟩

/-- C6 (counterexample): the claim "every constructed Timestamp has
end ≥ start" is false: a hit with start 5 and end 1 is converted
verbatim into a Timestamp with end < start (the pydantic model
enforces no relation between the two fields). -/
theorem timestamp_interval_counterexample :
    ¬ ((result_to_assembly_step
          { start := some 5, «end» := some 1 } mdEx none none).timestamp.start
        ≤ (result_to_assembly_step
          { start := some 5, «end» := some 1 } mdEx none none).timestamp.«end») := by
  decide

/-- C6 (amended): the Timestamp attached to a converted hit copies the
hit's start/end verbatim (each defaulting to 0 when missing), so
`end ≥ start` holds exactly when the hit's own (defaulted) values
satisfy it; no constructor enforces the interval property. -/
theorem timestamp_passthrough_spec (result : SearchResult)
    (metadata : VideoMetadata) (ec : Option ComponentType)
    (ea : Option ActionType) :
    (result_to_assembly_step result metadata ec ea).timestamp
        = { start := result.start.getD 0, «end» := result.«end».getD 0 }
    ∧ (result.start.getD 0 ≤ result.«end».getD 0 →
        (result_to_assembly_step result metadata ec ea).timestamp.start
          ≤ (result_to_assembly_step result metadata ec ea).timestamp.«end») :=
  ⟨rfl, fun h => h⟩

/-- Witness for C6's amended theorem at a well-formed hit. -/
theorem timestamp_passthrough_spec_witness :
    (result_to_assembly_step hitRAM mdEx none none).timestamp.start
      ≤ (result_to_assembly_step hitRAM mdEx none none).timestamp.«end» :=
  (timestamp_passthrough_spec hitRAM mdEx none none).2 (by decide)

/-! ## Lemmas on the sorting and numbering passes -/

theorem numberSteps_length (i : ℕ) (l : List AssemblyStep) :
    (numberSteps i l).length = l.length := by
  induction l generalizing i with
  | nil => rfl
  | cons s rest ih => simp [numberSteps, ih]

theorem getD_eq_get_of_lt {α : Type} (l : List α) (d : α) (k : ℕ)
    (h : k < l.length) : l.getD k d = l.get ⟨k, h⟩ := by
  rw [List.getD_eq_getElem?_getD, List.getElem?_eq_getElem h]
  rfl

theorem numberSteps_map_order (i : ℕ) (l : List AssemblyStep) :
    (numberSteps i l).map (fun s => s.step_order)
      = (List.range l.length).map (fun k : ℕ => some ((i : ℤ) + (k : ℤ) + 1)) := by
  induction l generalizing i with
  | nil => rfl
  | cons s rest ih =>
      simp only [List.length_cons]
      rw [List.range_succ_eq_map]
      simp only [numberSteps, List.map_cons, List.map_map, ih]
      congr 1
      apply List.map_congr_left
      intro a _
      simp only [Function.comp_apply, Option.some.injEq]
      push_cast
      ring

theorem numberSteps_map_start (i : ℕ) (l : List AssemblyStep) :
    (numberSteps i l).map (fun s => s.timestamp.start)
      = l.map (fun s => s.timestamp.start) := by
  induction l generalizing i with
  | nil => rfl
  | cons s rest ih => simp [numberSteps, ih]

theorem numberSteps_getD_order (l : List AssemblyStep) (i k : ℕ)
    (h : k < l.length) :
    ((numberSteps i l).getD k dfltStep).step_order = some ((i : ℤ) + k + 1) := by
  induction l generalizing i k with
  | nil => simp at h
  | cons s rest ih =>
      cases k with
      | zero => simp [numberSteps]
      | succ k =>
          simp only [numberSteps, List.getD_cons_succ]
          rw [ih (i + 1) k (by simpa using Nat.lt_of_succ_lt_succ h)]
          congr 1
          push_cast
          ring

theorem numberSteps_getD_start (l : List AssemblyStep) (i k : ℕ)
    (h : k < l.length) :
    ((numberSteps i l).getD k dfltStep).timestamp.start
      = (l.getD k dfltStep).timestamp.start := by
  induction l generalizing i k with
  | nil => simp at h
  | cons s rest ih =>
      cases k with
      | zero => rfl
      | succ k =>
          simp only [numberSteps, List.getD_cons_succ]
          exact ih (i + 1) k (by simpa using Nat.lt_of_succ_lt_succ h)

theorem numberSteps_filter_clear (c : ℚ) (i : ℕ) (l : List AssemblyStep) :
    ((numberSteps i l).filter (fun s => s.timestamp.start = c)).map clearOrder
      = (l.filter (fun s => s.timestamp.start = c)).map clearOrder := by
  induction l generalizing i with
  | nil => rfl
  | cons s rest ih =>
      by_cases hs : s.timestamp.start = c
      · simp [numberSteps, List.filter_cons, hs, clearOrder, ih]
      · simp [numberSteps, List.filter_cons, hs, ih]

theorem filter_orderedInsert_pos (c : ℚ) (a : AssemblyStep)
    (ha : a.timestamp.start = c) (l : List AssemblyStep) :
    (List.orderedInsert stepLE a l).filter (fun s => s.timestamp.start = c)
      = a :: l.filter (fun s => s.timestamp.start = c) := by
  induction l with
  | nil => simp [List.orderedInsert, ha]
  | cons b bs ih =>
      by_cases hab : stepLE a b
      · simp [List.orderedInsert, hab, List.filter_cons, ha]
      · have hb : ¬ b.timestamp.start = c := fun hbc =>
          hab (le_of_eq (ha.trans hbc.symm))
        simp [List.orderedInsert, hab, List.filter_cons, hb, ih]

theorem filter_orderedInsert_neg (c : ℚ) (a : AssemblyStep)
    (ha : ¬ a.timestamp.start = c) (l : List AssemblyStep) :
    (List.orderedInsert stepLE a l).filter (fun s => s.timestamp.start = c)
      = l.filter (fun s => s.timestamp.start = c) := by
  induction l with
  | nil => simp [List.orderedInsert, ha]
  | cons b bs ih =>
      by_cases hab : stepLE a b
      · simp [List.orderedInsert, hab, List.filter_cons, ha]
      · simp [List.orderedInsert, hab, List.filter_cons, ih]

theorem filter_sortSteps (c : ℚ) (l : List AssemblyStep) :
    (sortSteps l).filter (fun s => s.timestamp.start = c)
      = l.filter (fun s => s.timestamp.start = c) := by
  induction l with
  | nil => rfl
  | cons a l ih =>
      show (List.orderedInsert stepLE a (sortSteps l)).filter _ = _
      by_cases ha : a.timestamp.start = c
      · rw [filter_orderedInsert_pos c a ha, ih, List.filter_cons]
        simp [ha]
      · rw [filter_orderedInsert_neg c a ha, ih, List.filter_cons]
        simp [ha]

/-- C2: the step list produced by `extract_steps_from_video` carries
`step_order` values exactly `1..N` in order (dense, no gaps or
repeats), is sorted by `timestamp.start` ascending, is stable (for
every start value, the steps carrying it appear in first-seen
collection order, compared up to the `step_order` assignment), and
both `timestamp.start` and `step_order` are non-decreasing along the
list. -/
theorem extract_steps_order_spec (metadata : VideoMetadata)
    (query_results : List (SemanticQuery × List SearchResult)) :
    (extract_steps_from_video metadata query_results).map (fun s => s.step_order)
        = (List.range (extract_steps_from_video metadata query_results).length).map
            (fun k : ℕ => some ((k : ℤ) + 1))
    ∧ List.Sorted (· ≤ ·)
        ((extract_steps_from_video metadata query_results).map
          (fun s => s.timestamp.start))
    ∧ (∀ c : ℚ,
        ((extract_steps_from_video metadata query_results).filter
            (fun s => s.timestamp.start = c)).map clearOrder
          = ((collectSteps metadata query_results).filter
            (fun s => s.timestamp.start = c)).map clearOrder)
    ∧ (∀ i j : ℕ, i ≤ j →
        j < (extract_steps_from_video metadata query_results).length →
        ((extract_steps_from_video metadata query_results).getD i
            dfltStep).timestamp.start
          ≤ ((extract_steps_from_video metadata query_results).getD j
            dfltStep).timestamp.start
        ∧ ((extract_steps_from_video metadata query_results).getD i
            dfltStep).step_order.getD 0
          ≤ ((extract_steps_from_video metadata query_results).getD j
            dfltStep).step_order.getD 0) := by
  set X := collectSteps metadata query_results with hX
  have hsorted : List.Sorted stepLE (sortSteps X) :=
    List.sorted_insertionSort stepLE X
  have hlen : (extract_steps_from_video metadata query_results).length
      = (sortSteps X).length := by
    simp [extract_steps_from_video, numberSteps_length, hX]
  refine ⟨?_, ?_, ?_, ?_⟩
  · rw [show extract_steps_from_video metadata query_results
        = numberSteps 0 (sortSteps X) from rfl,
      numberSteps_map_order, numberSteps_length]
    apply List.map_congr_left
    intro k _
    simp
  · rw [show extract_steps_from_video metadata query_results
        = numberSteps 0 (sortSteps X) from rfl, numberSteps_map_start]
    exact hsorted.map _ (fun a b hab => hab)
  · intro c
    rw [show extract_steps_from_video metadata query_results
        = numberSteps 0 (sortSteps X) from rfl,
      numberSteps_filter_clear, filter_sortSteps]
  · intro i j hij hj
    have hj' : j < (sortSteps X).length := by rwa [hlen] at hj
    have hi' : i < (sortSteps X).length := lt_of_le_of_lt hij hj'
    have hgetstart : ∀ k (hk : k < (sortSteps X).length),
        ((extract_steps_from_video metadata query_results).getD k
            dfltStep).timestamp.start
          = ((sortSteps X).getD k dfltStep).timestamp.start := by
      intro k hk
      rw [show extract_steps_from_video metadata query_results
          = numberSteps 0 (sortSteps X) from rfl]
      exact numberSteps_getD_start _ 0 k hk
    constructor
    · rw [hgetstart i hi', hgetstart j hj',
        getD_eq_get_of_lt _ _ _ hi', getD_eq_get_of_lt _ _ _ hj']
      exact hsorted.rel_get_of_le (a := ⟨i, hi'⟩) (b := ⟨j, hj'⟩)
        (by simpa using hij)
    · rw [show extract_steps_from_video metadata query_results
          = numberSteps 0 (sortSteps X) from rfl,
        numberSteps_getD_order _ 0 i hi', numberSteps_getD_order _ 0 j hj']
      simp
      omega

/-- Witness for C2 on the concrete sample replies: the RAM step
(start 40) precedes the CPU step (start 120) and the orders are
non-decreasing. -/
theorem extract_steps_order_spec_witness :
    (0 : ℕ) ≤ 1
    ∧ 1 < (extract_steps_from_video mdEx qrsEx).length
    ∧ ((extract_steps_from_video mdEx qrsEx).getD 0 dfltStep).timestamp.start
        ≤ ((extract_steps_from_video mdEx qrsEx).getD 1 dfltStep).timestamp.start
    ∧ ((extract_steps_from_video mdEx qrsEx).getD 0 dfltStep).step_order.getD 0
        ≤ ((extract_steps_from_video mdEx qrsEx).getD 1 dfltStep).step_order.getD 0 := by
  have h1 : 1 < (extract_steps_from_video mdEx qrsEx).length := by
    rw [show extract_steps_from_video mdEx qrsEx
        = numberSteps 0 (sortSteps (collectSteps mdEx qrsEx)) from rfl,
      numberSteps_length]
    decide
  have h := (extract_steps_order_spec mdEx qrsEx).2.2.2 0 1 (by decide) h1
  exact ⟨by decide, h1, h.1, h.2⟩

/-! ## Round-trip lemmas for the persisted artifact -/

theorem decVideoType_roundtrip (v : VideoType) :
    decVideoType (JVal.str v.value) = some v := by
  cases v <;> rfl

theorem decSkillLevel_roundtrip (v : SkillLevel) :
    decSkillLevel (JVal.str v.value) = some v := by
  cases v <;> rfl

theorem decOptPlatform_roundtrip (p : Option Platform) :
    decOptPlatform (encOptStr (p.map Platform.value)) = some p := by
  cases p with
  | none => rfl
  | some pp => cases pp <;> rfl

theorem decOptFormFactor_roundtrip (p : Option FormFactor) :
    decOptFormFactor (encOptStr (p.map FormFactor.value)) = some p := by
  cases p with
  | none => rfl
  | some pp => cases pp <;> rfl

theorem decComponent_roundtrip (v : ComponentType) :
    decComponent (JVal.str v.value) = some v := by
  cases v <;> rfl

theorem decAction_roundtrip (v : ActionType) :
    decAction (JVal.str v.value) = some v := by
  cases v <;> rfl

theorem decPlatform_roundtrip (v : Platform) :
    decPlatform (JVal.str v.value) = some v := by
  cases v <;> rfl

theorem decFormFactor_roundtrip (v : FormFactor) :
    decFormFactor (JVal.str v.value) = some v := by
  cases v <;> rfl

theorem decSourceConfidence_roundtrip (v : SourceConfidence) :
    decSourceConfidence (JVal.str v.value) = some v := by
  cases v <;> rfl

theorem decOptStr_roundtrip (o : Option String) :
    decOptStr (encOptStr o) = some o := by
  cases o <;> rfl

theorem decOptNum_roundtrip (o : Option ℚ) :
    decOptNum (encOptNum o) = some o := by
  cases o <;> rfl

theorem decInt_roundtrip (z : ℤ) : decInt (JVal.num (z : ℚ)) = some z := by
  simp [decInt]

theorem decOptInt_roundtrip (o : Option ℤ) :
    decOptInt (encOptInt o) = some o := by
  cases o with
  | none => rfl
  | some z => simp [decOptInt, encOptInt, decInt]

theorem decStrList_roundtrip (xs : List String) :
    decStrList (JVal.arr (xs.map JVal.str)) = some xs := by
  induction xs with
  | nil => rfl
  | cons x xs ih =>
      simp only [decStrList, List.map_cons, List.foldr_cons]
      simp only [decStrList] at ih
      rw [ih]
      rfl

theorem decTimestamp_roundtrip (t : Timestamp) :
    decTimestamp (encTimestamp t) = some t :=
  rfl

theorem decVideoMetadata_roundtrip (m : VideoMetadata) :
    decVideoMetadata (encVideoMetadata m) = some m := by
  simp [encVideoMetadata, decVideoMetadata, decStr,
    decVideoType_roundtrip, decSkillLevel_roundtrip,
    decOptPlatform_roundtrip, decOptFormFactor_roundtrip,
    decOptNum_roundtrip, decOptStr_roundtrip]

theorem decAssemblyStep_roundtrip (s : AssemblyStep) :
    decAssemblyStep (encAssemblyStep s) = some s := by
  simp [encAssemblyStep, decAssemblyStep, decStr,
    decComponent_roundtrip, decAction_roundtrip, decPlatform_roundtrip,
    decFormFactor_roundtrip, decOptInt_roundtrip, decStrList_roundtrip,
    decTimestamp_roundtrip, decSourceConfidence_roundtrip]

theorem decStepList_roundtrip (steps : List AssemblyStep) :
    decStepList (steps.map encAssemblyStep) = some steps := by
  induction steps with
  | nil => rfl
  | cons s rest ih =>
      simp [decStepList, decAssemblyStep_roundtrip, ih]

/-- C3: persistence is lossless: validating the saved document of any
`ProcessedVideo` reproduces the identical structure, every field
included. -/
theorem save_load_roundtrip (x : ProcessedVideo) :
    load_results (save_results x) = some x := by
  simp [save_results, load_results, decSteps,
    decVideoMetadata_roundtrip, decStepList_roundtrip,
    decOptStr_roundtrip, decInt_roundtrip]

end Buildr
